import Mathlib

/-!
Shallow embedding of the request-scoped transactional session context of the
Tobira backend, translated from `src/backend/src/auth/mod.rs` and
`src/backend/src/http/handlers.rs`.

Conventions of the embedding:
* Header values are raw byte sequences, modelled as `List Nat` (each < 256).
* The base64 URL-safe decoding (`base64::decode_config(input, base64::URL_SAFE)`)
  and the UTF-8 validation (`String::from_utf8`) are implemented concretely.
* The sessions table `user_sessions` is a list of rows; SQL timestamps are
  modelled as integer seconds.
* The asynchronous request handler `handle_api` is modelled as a function of an
  environment recording the outcome of each external call (pool acquisition,
  identity resolution, transaction begin, executor run, reference count of the
  transaction `Arc` after the executor, commit), returning the final outcome
  (a response, or process abort) together with the trace of completed steps.
-/

namespace Tobira

/-- Translated from `auth/mod.rs`: `pub(crate) const ROLE_ADMIN: &str = "ROLE_ADMIN";`. -/
def ROLE_ADMIN : String := "ROLE_ADMIN"

/-- Translated from `auth/mod.rs`: `const ROLE_ANONYMOUS: &str = "ROLE_ANONYMOUS";`. -/
def ROLE_ANONYMOUS : String := "ROLE_ANONYMOUS"

/-- Translated from `auth/mod.rs` `enum AuthMode`. -/
inductive AuthMode where
  | none
  | fullAuthProxy
  | loginProxy
deriving DecidableEq

/-- The fields of `auth/mod.rs` `struct AuthConfig` that the core uses.
`session_duration` is in whole seconds. -/
structure AuthConfig where
  mode : AuthMode
  username_header : String
  display_name_header : String
  roles_header : String
  moderator_role : String
  upload_role : String
  studio_role : String
  editor_role : String
  session_duration : Int
deriving DecidableEq

/-- The default values of the `confique` config annotations in `auth/mod.rs`
(30 days of session duration). -/
def default_auth_config : AuthConfig :=
  { mode := AuthMode.none
    username_header := "x-tobira-username"
    display_name_header := "x-tobira-user-display-name"
    roles_header := "x-tobira-user-roles"
    moderator_role := "ROLE_TOBIRA_MODERATOR"
    upload_role := "ROLE_TOBIRA_UPLOAD"
    studio_role := "ROLE_TOBIRA_STUDIO"
    editor_role := "ROLE_TOBIRA_EDITOR"
    session_duration := 2592000 }

/-- Translated from `auth/mod.rs` `struct User`. -/
structure User where
  username : String
  display_name : String
  roles : List String
deriving DecidableEq

/-! ### Base64 decoding with the URL-safe character set

Translation of `base64::decode_config(input, base64::URL_SAFE)` as used by
`fn base64decode` in `auth/mod.rs`: alphabet `A-Z a-z 0-9 - _`, optional
trailing `=` padding, canonical trailing bits required. -/

/-- Value of one symbol of the URL-safe base64 alphabet (input is a byte). -/
def b64Val (b : Nat) : Option Nat :=
  if 65 ≤ b ∧ b ≤ 90 then some (b - 65)
  else if 97 ≤ b ∧ b ≤ 122 then some (b - 97 + 26)
  else if 48 ≤ b ∧ b ≤ 57 then some (b - 48 + 52)
  else if b = 45 then some 62
  else if b = 95 then some 63
  else none

/-- Decode a list of 6-bit symbol values into bytes.  A final chunk of one
symbol is an invalid length; final chunks of two or three symbols must have
zero trailing bits. -/
def decodeQuads : List Nat → Except String (List Nat)
  | [] => Except.ok []
  | [_] => Except.error "InvalidLength"
  | [a, b] =>
    if b % 16 = 0 then Except.ok [a * 4 + b / 16] else Except.error "InvalidLastSymbol"
  | [a, b, c] =>
    if c % 4 = 0 then Except.ok [a * 4 + b / 16, (b % 16) * 16 + c / 4]
    else Except.error "InvalidLastSymbol"
  | a :: b :: c :: d :: rest =>
    match decodeQuads rest with
    | Except.error e => Except.error e
    | Except.ok tail =>
      Except.ok ((a * 4 + b / 16) :: ((b % 16) * 16 + c / 4) :: ((c % 4) * 64 + d) :: tail)

/-- Translation of `fn base64decode` in `auth/mod.rs` (URL-safe config). -/
def base64decode (input : List Nat) : Except String (List Nat) :=
  let pads := (input.reverse.takeWhile (fun b => b = 61)).length
  if 2 < pads then Except.error "InvalidByte"
  else if 0 < pads ∧ input.length % 4 ≠ 0 then Except.error "InvalidLength"
  else
    match (input.take (input.length - pads)).mapM b64Val with
    | none => Except.error "InvalidByte"
    | some vals => decodeQuads vals

/-! ### UTF-8 validation

Translation of `String::from_utf8` (standard UTF-8 validation, rejecting
overlong forms, surrogates and code points above U+10FFFF). -/

/-- Is a byte a UTF-8 continuation byte (`0b10xxxxxx`)? -/
def isCont (b : Nat) : Bool := 128 ≤ b && b ≤ 191

/-- Constraint on the second byte of a three-byte UTF-8 sequence. -/
def utf8Second3 (b1 b2 : Nat) : Bool :=
  if b1 = 224 then 160 ≤ b2 && b2 ≤ 191
  else if b1 = 237 then 128 ≤ b2 && b2 ≤ 159
  else isCont b2

/-- Constraint on the second byte of a four-byte UTF-8 sequence. -/
def utf8Second4 (b1 b2 : Nat) : Bool :=
  if b1 = 240 then 144 ≤ b2 && b2 ≤ 191
  else if b1 = 244 then 128 ≤ b2 && b2 ≤ 143
  else isCont b2

/-- Decode a UTF-8 byte sequence into characters; `none` on invalid input. -/
def utf8Chars : List Nat → Option (List Char)
  | [] => some []
  | b1 :: rest =>
    if b1 < 128 then
      (utf8Chars rest).map (fun cs => Char.ofNat b1 :: cs)
    else if b1 < 194 then none
    else if b1 < 224 then
      match rest with
      | b2 :: rest2 =>
        if isCont b2 then
          (utf8Chars rest2).map (fun cs => Char.ofNat ((b1 - 192) * 64 + (b2 - 128)) :: cs)
        else none
      | [] => none
    else if b1 < 240 then
      match rest with
      | b2 :: b3 :: rest3 =>
        if utf8Second3 b1 b2 && isCont b3 then
          (utf8Chars rest3).map
            (fun cs => Char.ofNat ((b1 - 224) * 4096 + (b2 - 128) * 64 + (b3 - 128)) :: cs)
        else none
      | _ => none
    else if b1 < 245 then
      match rest with
      | b2 :: b3 :: b4 :: rest4 =>
        if utf8Second4 b1 b2 && isCont b3 && isCont b4 then
          (utf8Chars rest4).map
            (fun cs => Char.ofNat
              ((b1 - 240) * 262144 + (b2 - 128) * 4096 + (b3 - 128) * 64 + (b4 - 128)) :: cs)
        else none
      | _ => none
    else none

/-- Translation of `String::from_utf8`: a `String` on success, `none` on
invalid UTF-8. -/
def utf8Decode (l : List Nat) : Option String :=
  (utf8Chars l).map (fun cs => String.mk cs)

/-! ### Reading auth headers

Translation of `User::from_auth_headers` in `auth/mod.rs`.  A `HeaderMap`
maps a header name to its raw byte value, when present. -/

/-- Request headers: header name to raw bytes. -/
abbrev HeaderMap := String → Option (List Nat)

/-- Build a `HeaderMap` from an association list. -/
def headersOf (l : List (String × List Nat)) : HeaderMap :=
  fun name => (l.find? (fun p => p.1 = name)).map (fun p => p.2)

/-- The outcome of the `get_header` closure in `User::from_auth_headers`:
the header can be absent, present but invalid base64, present with base64
that decodes to invalid UTF-8, or successfully decoded. -/
inductive HeaderRead where
  | absent
  | badBase64
  | badUtf8
  | ok (s : String)
deriving DecidableEq

/-- The value produced by `get_header`: `some` only on full success. -/
def HeaderRead.toOption : HeaderRead → Option String
  | HeaderRead.ok s => some s
  | _ => none

/-- Did this header read log a warning?  `get_header` warns exactly on the
two decoding failures, not on an absent header. -/
def HeaderRead.warns : HeaderRead → Bool
  | HeaderRead.badBase64 => true
  | HeaderRead.badUtf8 => true
  | _ => false

/-- Translation of the `get_header` closure: read the named header, base64
URL-safe decode it, and validate the result as UTF-8. -/
def readHeader (headers : HeaderMap) (name : String) : HeaderRead :=
  match headers name with
  | none => HeaderRead.absent
  | some bytes =>
    match base64decode bytes with
    | Except.error _ => HeaderRead.badBase64
    | Except.ok decoded =>
      match utf8Decode decoded with
      | none => HeaderRead.badUtf8
      | some s => HeaderRead.ok s

/-- The Unicode `White_Space` property, as used by Rust `str::trim`. -/
def rustIsWhitespace (c : Char) : Bool :=
  (9 ≤ c.toNat && c.toNat ≤ 13) || c.toNat = 32 || c.toNat = 133 || c.toNat = 160
    || c.toNat = 5760 || (8192 ≤ c.toNat && c.toNat ≤ 8202) || c.toNat = 8232
    || c.toNat = 8233 || c.toNat = 8239 || c.toNat = 8287 || c.toNat = 12288

/-- Rust `str::trim`: strip whitespace from both ends. -/
def rustTrim (s : List Char) : List Char :=
  ((s.dropWhile rustIsWhitespace).reverse.dropWhile rustIsWhitespace).reverse

/-- Rust `str::split(sep)`: splitting the empty string yields one empty piece. -/
def rustSplit (sep : Char) : List Char → List (List Char)
  | [] => [[]]
  | c :: rest =>
    if c = sep then [] :: rustSplit sep rest
    else
      match rustSplit sep rest with
      | [] => [[c]]
      | g :: gs => (c :: g) :: gs

/-- Translation of `roles_raw.split(',').map(|role| role.trim().to_owned())`. -/
def split_trim_roles (roles_raw : String) : List String :=
  (rustSplit ',' roles_raw.data).map (fun piece => String.mk (rustTrim piece))

/-- Translation of `User::from_auth_headers`: username and display name are
required (an absent or undecodable header means no user session); the roles
start with `ROLE_ANONYMOUS` and extend with the split-and-trimmed roles
header when it decodes. -/
def from_auth_headers (headers : HeaderMap) (auth_config : AuthConfig) : Option User :=
  match (readHeader headers auth_config.username_header).toOption with
  | none => none
  | some username =>
    match (readHeader headers auth_config.display_name_header).toOption with
    | none => none
    | some display_name =>
      let roles :=
        match (readHeader headers auth_config.roles_header).toOption with
        | none => [ROLE_ANONYMOUS]
        | some roles_raw => ROLE_ANONYMOUS :: split_trim_roles roles_raw
      some { username := username, display_name := display_name, roles := roles }

/-- The warnings logged by `User::from_auth_headers`, in evaluation order:
the username header is read first; the display-name header only if the
username decoded; the roles header only if both decoded. -/
def from_auth_headers_warnings (headers : HeaderMap) (auth_config : AuthConfig) : List String :=
  let warnOf := fun (r : HeaderRead) (name : String) =>
    match r with
    | HeaderRead.badBase64 => ["header " ++ name ++ " is set but not valid base64"]
    | HeaderRead.badUtf8 => ["header " ++ name ++ " is set but decoded base64 is not UTF8"]
    | _ => ([] : List String)
  match readHeader headers auth_config.username_header with
  | HeaderRead.ok _ =>
    match readHeader headers auth_config.display_name_header with
    | HeaderRead.ok _ =>
      warnOf (readHeader headers auth_config.roles_header) auth_config.roles_header
    | r => warnOf r auth_config.display_name_header
  | r => warnOf r auth_config.username_header

/-! ### Sessions

Translation of `User::from_session`, `User::persist_new_session` and the
session-deleting SQL of `db_maintenance` in `auth/mod.rs`.  The table
`user_sessions` is a list of rows; `created` and `now` are integer-second
timestamps; session ids are opaque naturals. -/

/-- A row of the `user_sessions` table. -/
structure SessionRow where
  id : Nat
  username : String
  display_name : String
  roles : List String
  created : Int
deriving DecidableEq

/-- Translation of the lookup query of `User::from_session`:
`select ... from user_sessions where id = $1 and
extract(epoch from now() - created) < $2`. -/
def user_sessions_lookup (db : List SessionRow) (sid : Nat) (session_duration : Int)
    (now : Int) : Option SessionRow :=
  db.find? (fun r => r.id = sid && decide (now - r.created < session_duration))

/-- Translation of `User::from_session`.  The cookie parsing
(`SessionId::from_headers`, in `auth/session_id.rs`, not part of the shown
sources) is abstracted into the `cookie : Option Nat` argument.  The second
component counts the database queries issued. -/
def from_session (cookie : Option Nat) (db : List SessionRow) (session_duration : Int)
    (now : Int) : Option User × Nat :=
  match cookie with
  | none => (none, 0)
  | some sid =>
    match user_sessions_lookup db sid session_duration now with
    | none => (none, 1)
    | some row => (some { username := row.username, display_name := row.display_name,
                          roles := row.roles }, 1)

/-- Translation of `User::persist_new_session`: insert a fresh row; the
unique-key violation on an id collision is the error case (never retried).
The generated random id is the `sid` argument; the database fills `created`
with `now()`. -/
def persist_new_session (u : User) (sid : Nat) (now : Int) (db : List SessionRow) :
    Except String (Nat × List SessionRow) :=
  if db.any (fun r => r.id = sid) then Except.error "unique constraint violation"
  else Except.ok (sid, db ++ [⟨sid, u.username, u.display_name, u.roles, now⟩])

/-- Translation of the sweep in `db_maintenance`:
`delete from user_sessions where extract(epoch from now() - created) > $1`.
Returns the remaining table and the deleted count. -/
def delete_expired_sessions (db : List SessionRow) (session_duration : Int) (now : Int) :
    List SessionRow × Nat :=
  ((db.filter (fun r => !decide (now - r.created > session_duration))),
   (db.filter (fun r => decide (now - r.created > session_duration))).length)

/-- Translation of `User::new`: dispatch on the configured auth mode.
The `loginProxy` arm also reports the database query count. -/
def User.new (headers : HeaderMap) (cookie : Option Nat) (db : List SessionRow)
    (now : Int) (auth_config : AuthConfig) : Option User × Nat :=
  match auth_config.mode with
  | AuthMode.none => (none, 0)
  | AuthMode.fullAuthProxy => (from_auth_headers headers auth_config, 0)
  | AuthMode.loginProxy => from_session cookie db auth_config.session_duration now

/-! ### Capability gate

Translation of `AuthToken` and the `HasRoles` trait in `auth/mod.rs`.
The trait methods depend only on `self.roles()`, so they are embedded as
functions of the role list; `rolesOf` is the `HasRoles for Option<User>`
instance (anonymous users have exactly `ROLE_ANONYMOUS`). -/

/-- Translation of `struct AuthToken(())`: a pure marker value. -/
structure AuthToken where
  mk ::
deriving DecidableEq

/-- Translation of `AuthToken::some_if`. -/
def AuthToken.some_if (v : Bool) : Option AuthToken :=
  if v then some AuthToken.mk else none

/-- Translation of `HasRoles for Option<User>`: `ROLE_ANONYMOUS` when logged
out, the user's roles otherwise. -/
def rolesOf : Option User → List String
  | none => [ROLE_ANONYMOUS]
  | some u => u.roles

/-- Translation of `HasRoles::is_admin`. -/
def is_admin (roles : List String) : Bool :=
  roles.any (fun role => role = ROLE_ADMIN)

/-- Translation of `HasRoles::is_moderator`. -/
def is_moderator (roles : List String) (auth_config : AuthConfig) : Bool :=
  is_admin roles || roles.contains auth_config.moderator_role

/-- Translation of `HasRoles::can_upload`. -/
def can_upload (roles : List String) (auth_config : AuthConfig) : Bool :=
  is_moderator roles auth_config || roles.contains auth_config.upload_role

/-- Translation of `HasRoles::can_use_studio`. -/
def can_use_studio (roles : List String) (auth_config : AuthConfig) : Bool :=
  is_moderator roles auth_config || roles.contains auth_config.studio_role

/-- Translation of `HasRoles::can_use_editor`. -/
def can_use_editor (roles : List String) (auth_config : AuthConfig) : Bool :=
  is_moderator roles auth_config || roles.contains auth_config.editor_role

/-- Translation of `HasRoles::require_moderator`. -/
def require_moderator (roles : List String) (auth_config : AuthConfig) : Option AuthToken :=
  AuthToken.some_if (is_moderator roles auth_config)

/-- Translation of `HasRoles::required_upload_permission`. -/
def required_upload_permission (roles : List String) (auth_config : AuthConfig) :
    Option AuthToken :=
  AuthToken.some_if (can_upload roles auth_config)

/-- Translation of `HasRoles::required_studio_permission`. -/
def required_studio_permission (roles : List String) (auth_config : AuthConfig) :
    Option AuthToken :=
  AuthToken.some_if (can_use_studio roles auth_config)

/-- Translation of `HasRoles::required_editor_permission`. -/
def required_editor_permission (roles : List String) (auth_config : AuthConfig) :
    Option AuthToken :=
  AuthToken.some_if (can_use_editor roles auth_config)

/-! ### The API request handler

Translation of `handle_api`, `get_db_connection`, `service_unavailable` and
`internal_server_error` in `http/handlers.rs`.  External effects are inputs:
an `ApiEnv` records the outcome of each fallible call the handler makes, and
`tx_refs_after_executor` is the strong count of the transaction `Arc` after
the API context is dropped (the handler's own handle included), which is what
`Arc::try_unwrap` inspects. -/

/-- An HTTP response: status code and body. -/
structure Response where
  status : Nat
  body : String
deriving DecidableEq

/-- Translation of `fn service_unavailable` (503). -/
def service_unavailable : Response :=
  ⟨503, "Server error: service unavailable. Potentially try again later."⟩

/-- Translation of `fn internal_server_error` (500). -/
def internal_server_error : Response :=
  ⟨500, "Internal server error"⟩

/-- Translation of `fn get_db_connection`: a pool error becomes a
service-unavailable response. -/
def get_db_connection (pool_result : Except String Unit) : Except Response Unit :=
  match pool_result with
  | Except.error _ => Except.error service_unavailable
  | Except.ok _ => Except.ok ()

/-- How one run of `handle_api` ends: with an HTTP response, or with
`std::process::abort()`. -/
inductive ApiOutcome where
  | response (r : Response)
  | aborted
deriving DecidableEq

/-- The externally observable steps of `handle_api`, in order. -/
inductive ApiStep where
  | acquiredConn
  | resolvedUser
  | openedTx
  | ranExecutor
  | attemptedCommit
deriving DecidableEq

/-- The outcomes of the external calls one `handle_api` run makes. -/
structure ApiEnv where
  pool_result : Except String Unit
  user_result : Except String (Option User)
  tx_begin_result : Except String Unit
  executor_response : Response
  tx_refs_after_executor : Nat
  commit_result : Except String Unit

/-- Translation of `fn handle_api` in `http/handlers.rs`: acquire a
connection (503 on failure), resolve the user session (500 on a database
error), begin a transaction (500 on failure), run the GraphQL executor,
then check sole ownership of the transaction `Arc`; any remaining foreign
handle aborts the process, otherwise commit and return the executor's
response (503 on commit failure).  Also returns the trace of completed
steps. -/
def handle_api (env : ApiEnv) : ApiOutcome × List ApiStep :=
  match get_db_connection env.pool_result with
  | Except.error resp => (ApiOutcome.response resp, [])
  | Except.ok _ =>
    match env.user_result with
    | Except.error _ => (ApiOutcome.response internal_server_error, [ApiStep.acquiredConn])
    | Except.ok _ =>
      match env.tx_begin_result with
      | Except.error _ =>
        (ApiOutcome.response internal_server_error, [ApiStep.acquiredConn, ApiStep.resolvedUser])
      | Except.ok _ =>
        if env.tx_refs_after_executor = 1 then
          match env.commit_result with
          | Except.ok _ =>
            (ApiOutcome.response env.executor_response,
             [ApiStep.acquiredConn, ApiStep.resolvedUser, ApiStep.openedTx,
              ApiStep.ranExecutor, ApiStep.attemptedCommit])
          | Except.error _ =>
            (ApiOutcome.response service_unavailable,
             [ApiStep.acquiredConn, ApiStep.resolvedUser, ApiStep.openedTx,
              ApiStep.ranExecutor, ApiStep.attemptedCommit])
        else
          (ApiOutcome.aborted,
           [ApiStep.acquiredConn, ApiStep.resolvedUser, ApiStep.openedTx, ApiStep.ranExecutor])

/-! ### Sample inputs

Concrete header maps used by witnesses and counterexamples.  The byte lists
are base64url encodings: `[89, 87, 74, 106]` is `"YWJj"` (decoding to
`"abc"`), `[85, 107, 57, 77, 82, 86, 57, 89]` is `"Uk9MRV9Y"` (decoding to
`"ROLE_X"`), and `[37]` (`"%"`) is not valid base64. -/

/-- Headers with valid username, display name and a roles header decoding to
`"ROLE_X"`. -/
def sample_headers : HeaderMap :=
  headersOf
    [("x-tobira-username", [89, 87, 74, 106]),
     ("x-tobira-user-display-name", [89, 87, 74, 106]),
     ("x-tobira-user-roles", [85, 107, 57, 77, 82, 86, 57, 89])]

/-- Headers with valid username and display name but a roles header that is
not valid base64. -/
def bad_roles_headers : HeaderMap :=
  headersOf
    [("x-tobira-username", [89, 87, 74, 106]),
     ("x-tobira-user-display-name", [89, 87, 74, 106]),
     ("x-tobira-user-roles", [37])]

/-! ### Helper lemmas -/

/-- `AuthToken::some_if` produces a token exactly when its argument holds. -/
theorem some_if_isSome (b : Bool) : (AuthToken.some_if b).isSome = b := by
  cases b <;> rfl

/-! ### Claim C2 -/

/-- Claim C2: for every identity (including anonymous, via the
`Option<User>` instance of `HasRoles`) and every policy configuration,
`is_moderator` holds exactly when `is_admin` holds or the roles contain the
configured moderator role; `can_upload`, `can_use_studio` and
`can_use_editor` each hold exactly when `is_moderator` holds or the roles
contain the respective configured role; and each `require_*` function
returns a proof token exactly when the corresponding boolean check is true. -/
theorem capability_gate_correct (s : Option User) (cfg : AuthConfig) :
    (is_moderator (rolesOf s) cfg = true ↔
      (is_admin (rolesOf s) = true ∨ cfg.moderator_role ∈ rolesOf s)) ∧
    (can_upload (rolesOf s) cfg = true ↔
      (is_moderator (rolesOf s) cfg = true ∨ cfg.upload_role ∈ rolesOf s)) ∧
    (can_use_studio (rolesOf s) cfg = true ↔
      (is_moderator (rolesOf s) cfg = true ∨ cfg.studio_role ∈ rolesOf s)) ∧
    (can_use_editor (rolesOf s) cfg = true ↔
      (is_moderator (rolesOf s) cfg = true ∨ cfg.editor_role ∈ rolesOf s)) ∧
    ((require_moderator (rolesOf s) cfg).isSome = true ↔
      is_moderator (rolesOf s) cfg = true) ∧
    ((required_upload_permission (rolesOf s) cfg).isSome = true ↔
      can_upload (rolesOf s) cfg = true) ∧
    ((required_studio_permission (rolesOf s) cfg).isSome = true ↔
      can_use_studio (rolesOf s) cfg = true) ∧
    ((required_editor_permission (rolesOf s) cfg).isSome = true ↔
      can_use_editor (rolesOf s) cfg = true) := by
  refine ⟨?_, ?_, ?_, ?_, ?_, ?_, ?_, ?_⟩ <;>
    simp [is_moderator, can_upload, can_use_studio, can_use_editor,
      require_moderator, required_upload_permission, required_studio_permission,
      required_editor_permission, some_if_isSome, Bool.or_eq_true, List.contains]

/-- Witness for claim C2 at a concrete identity and the default policy:
a user carrying the configured moderator role is a moderator and obtains a
proof from `require_moderator`. -/
theorem capability_gate_correct_witness :
    is_moderator (rolesOf (some ⟨"jan", "Jan", ["ROLE_TOBIRA_MODERATOR"]⟩))
      default_auth_config = true ∧
    (require_moderator (rolesOf (some ⟨"jan", "Jan", ["ROLE_TOBIRA_MODERATOR"]⟩))
      default_auth_config).isSome = true := by
  have h := capability_gate_correct
    (some ⟨"jan", "Jan", ["ROLE_TOBIRA_MODERATOR"]⟩) default_auth_config
  have hm : is_moderator (rolesOf (some ⟨"jan", "Jan", ["ROLE_TOBIRA_MODERATOR"]⟩))
      default_auth_config = true :=
    h.1.mpr (Or.inr (by decide))
  exact ⟨hm, (h.2.2.2.2.1).mpr hm⟩

/-! ### Claim C10 -/

/-- Counterexample to claim C10 as stated: with the default policy except
`upload_role := "ROLE_ANONYMOUS"`, the configured moderator role is not
`"ROLE_ANONYMOUS"`, yet the anonymous identity is granted a
`required_upload_permission` proof. -/
theorem anonymous_capabilities_counterexample :
    ({ default_auth_config with upload_role := "ROLE_ANONYMOUS" } : AuthConfig).moderator_role
        ≠ "ROLE_ANONYMOUS" ∧
    (required_upload_permission (rolesOf (none : Option User))
      { default_auth_config with upload_role := "ROLE_ANONYMOUS" }).isSome = true := by
  decide

/-- Claim C10 (amended): for the anonymous identity the role set is exactly
`[ROLE_ANONYMOUS]` and `is_admin` is false for every configuration;
`is_moderator` and the `require_moderator` proof are granted to anonymous
exactly when the configured moderator role is `"ROLE_ANONYMOUS"`; each other
`require_*` proof is granted to anonymous exactly when the configured
moderator role or the respective configured role is `"ROLE_ANONYMOUS"`. -/
theorem anonymous_capabilities (cfg : AuthConfig) :
    rolesOf (none : Option User) = [ROLE_ANONYMOUS] ∧
    is_admin (rolesOf (none : Option User)) = false ∧
    (is_moderator (rolesOf (none : Option User)) cfg = true ↔
      cfg.moderator_role = "ROLE_ANONYMOUS") ∧
    ((require_moderator (rolesOf (none : Option User)) cfg).isSome = true ↔
      cfg.moderator_role = "ROLE_ANONYMOUS") ∧
    ((required_upload_permission (rolesOf (none : Option User)) cfg).isSome = true ↔
      (cfg.moderator_role = "ROLE_ANONYMOUS" ∨ cfg.upload_role = "ROLE_ANONYMOUS")) ∧
    ((required_studio_permission (rolesOf (none : Option User)) cfg).isSome = true ↔
      (cfg.moderator_role = "ROLE_ANONYMOUS" ∨ cfg.studio_role = "ROLE_ANONYMOUS")) ∧
    ((required_editor_permission (rolesOf (none : Option User)) cfg).isSome = true ↔
      (cfg.moderator_role = "ROLE_ANONYMOUS" ∨ cfg.editor_role = "ROLE_ANONYMOUS")) := by
  have hadm : is_admin [ROLE_ANONYMOUS] = false := by decide
  have hone : ∀ r : String, List.contains [ROLE_ANONYMOUS] r = true ↔ r = "ROLE_ANONYMOUS" := by
    intro r
    simp [List.contains, ROLE_ANONYMOUS]
  refine ⟨rfl, by decide, ?_, ?_, ?_, ?_, ?_⟩ <;>
    simp only [rolesOf, require_moderator, required_upload_permission,
      required_studio_permission, required_editor_permission, some_if_isSome,
      can_upload, can_use_studio, can_use_editor, is_moderator, hadm,
      Bool.false_or, Bool.or_eq_true, hone]

/-- Witness for the amended claim C10: with the moderator role configured to
`"ROLE_ANONYMOUS"`, the anonymous identity obtains a moderator proof. -/
theorem anonymous_capabilities_witness :
    (require_moderator (rolesOf (none : Option User))
      { default_auth_config with moderator_role := "ROLE_ANONYMOUS" }).isSome = true :=
  (anonymous_capabilities
    { default_auth_config with moderator_role := "ROLE_ANONYMOUS" }).2.2.2.1.mpr (by decide)

/-! ### Claim C9 -/

/-- Claim C9: every identity successfully constructed from trust headers has
`ROLE_ANONYMOUS` as the first element of its role list (hence in its role
set), also when a roles header is present and lists other roles. -/
theorem from_auth_headers_anonymous_role (headers : HeaderMap) (cfg : AuthConfig)
    (u : User) (h : from_auth_headers headers cfg = some u) :
    u.roles.head? = some ROLE_ANONYMOUS ∧ ROLE_ANONYMOUS ∈ u.roles := by
  unfold from_auth_headers at h
  cases hu : (readHeader headers cfg.username_header).toOption with
  | none => rw [hu] at h; cases h
  | some username =>
    rw [hu] at h
    cases hd : (readHeader headers cfg.display_name_header).toOption with
    | none => rw [hd] at h; cases h
    | some display_name =>
      rw [hd] at h
      cases hr : (readHeader headers cfg.roles_header).toOption with
      | none =>
        rw [hr] at h
        cases h
        simp
      | some roles_raw =>
        rw [hr] at h
        cases h
        simp

/-- Witness for claim C9 at concrete headers whose roles header decodes to
`"ROLE_X"`: the constructed identity still leads with `ROLE_ANONYMOUS`. -/
theorem from_auth_headers_anonymous_role_witness :
    (⟨"abc", "abc", ["ROLE_ANONYMOUS", "ROLE_X"]⟩ : User).roles.head? = some ROLE_ANONYMOUS ∧
    ROLE_ANONYMOUS ∈ (⟨"abc", "abc", ["ROLE_ANONYMOUS", "ROLE_X"]⟩ : User).roles :=
  from_auth_headers_anonymous_role sample_headers default_auth_config
    ⟨"abc", "abc", ["ROLE_ANONYMOUS", "ROLE_X"]⟩ (by decide)

/-! ### Claim C5 -/

/-- Counterexample to claim C5 as stated: at headers whose roles header
decodes to `"ROLE_X"`, the trimmed comma-separated pieces are `["ROLE_X"]`,
but the constructed identity's roles are `["ROLE_ANONYMOUS", "ROLE_X"]`, not
the pieces alone. -/
theorem from_auth_headers_roles_counterexample :
    readHeader sample_headers default_auth_config.roles_header = HeaderRead.ok "ROLE_X" ∧
    split_trim_roles "ROLE_X" = ["ROLE_X"] ∧
    from_auth_headers sample_headers default_auth_config
      = some ⟨"abc", "abc", ["ROLE_ANONYMOUS", "ROLE_X"]⟩ ∧
    from_auth_headers sample_headers default_auth_config
      ≠ some ⟨"abc", "abc", ["ROLE_X"]⟩ := by
  decide

/-- Claim C5 (amended): in header-trust mode, a missing or undecodable
username or display-name header makes resolution return `none`; when both
decode and the roles header is missing, the identity's roles are exactly the
implicit anonymous role; when the roles header decodes, the identity's roles
are the implicit anonymous role followed by the decoded string's trimmed
comma-separated pieces. -/
theorem from_auth_headers_resolution (headers : HeaderMap) (cfg : AuthConfig) :
    ((readHeader headers cfg.username_header).toOption = none →
      from_auth_headers headers cfg = none) ∧
    ((readHeader headers cfg.display_name_header).toOption = none →
      from_auth_headers headers cfg = none) ∧
    (∀ un dn, readHeader headers cfg.username_header = HeaderRead.ok un →
      readHeader headers cfg.display_name_header = HeaderRead.ok dn →
      (readHeader headers cfg.roles_header = HeaderRead.absent →
        from_auth_headers headers cfg = some ⟨un, dn, [ROLE_ANONYMOUS]⟩) ∧
      (∀ rr, readHeader headers cfg.roles_header = HeaderRead.ok rr →
        from_auth_headers headers cfg
          = some ⟨un, dn, ROLE_ANONYMOUS :: split_trim_roles rr⟩)) := by
  refine ⟨?_, ?_, ?_⟩
  · intro hu
    simp [from_auth_headers, hu]
  · intro hd
    cases hu : (readHeader headers cfg.username_header).toOption with
    | none => simp [from_auth_headers, hu]
    | some un => simp [from_auth_headers, hu, hd]
  · intro un dn hun hdn
    constructor
    · intro hr
      simp [from_auth_headers, hun, hdn, hr, HeaderRead.toOption]
    · intro rr hr
      simp [from_auth_headers, hun, hdn, hr, HeaderRead.toOption]

/-- Witness for the amended claim C5 at concrete headers: the roles header
decoding to `"ROLE_X"` produces the identity with roles
`["ROLE_ANONYMOUS", "ROLE_X"]`. -/
theorem from_auth_headers_resolution_witness :
    from_auth_headers sample_headers default_auth_config
      = some ⟨"abc", "abc", ROLE_ANONYMOUS :: split_trim_roles "ROLE_X"⟩ :=
  (((from_auth_headers_resolution sample_headers default_auth_config).2.2
      "abc" "abc" (by decide) (by decide)).2 "ROLE_X" (by decide))

/-! ### Claim C6 -/

/-- Counterexample to claim C6 as stated: the roles header value `[37]`
(`"%"`) is malformed base64, yet resolution does not yield `none` — it
returns the identity with only the anonymous role. -/
theorem from_auth_headers_malformed_counterexample :
    readHeader bad_roles_headers default_auth_config.roles_header = HeaderRead.badBase64 ∧
    from_auth_headers bad_roles_headers default_auth_config
      = some ⟨"abc", "abc", ["ROLE_ANONYMOUS"]⟩ ∧
    from_auth_headers bad_roles_headers default_auth_config ≠ none := by
  decide

/-- Claim C6 (amended): a consumed header value that is malformed base64 or
decodes to non-UTF-8 bytes never produces an error (resolution is
`Option`-valued by construction) and always logs a warning; for the username
or display-name header the resolution is `none`, while for the roles header
(username and display name having decoded) the resolution is the identity
with only the implicit anonymous role. -/
theorem from_auth_headers_malformed (headers : HeaderMap) (cfg : AuthConfig) :
    ((readHeader headers cfg.username_header).warns = true →
      from_auth_headers headers cfg = none ∧
      from_auth_headers_warnings headers cfg ≠ []) ∧
    (∀ un, readHeader headers cfg.username_header = HeaderRead.ok un →
      (readHeader headers cfg.display_name_header).warns = true →
      from_auth_headers headers cfg = none ∧
      from_auth_headers_warnings headers cfg ≠ []) ∧
    (∀ un dn, readHeader headers cfg.username_header = HeaderRead.ok un →
      readHeader headers cfg.display_name_header = HeaderRead.ok dn →
      (readHeader headers cfg.roles_header).warns = true →
      from_auth_headers headers cfg = some ⟨un, dn, [ROLE_ANONYMOUS]⟩ ∧
      from_auth_headers_warnings headers cfg ≠ []) := by
  refine ⟨?_, ?_, ?_⟩
  · intro hw
    cases hru : readHeader headers cfg.username_header <;>
      simp_all [from_auth_headers, from_auth_headers_warnings,
        HeaderRead.toOption, HeaderRead.warns]
  · intro un hun hw
    cases hrd : readHeader headers cfg.display_name_header <;>
      simp_all [from_auth_headers, from_auth_headers_warnings,
        HeaderRead.toOption, HeaderRead.warns]
  · intro un dn hun hdn hw
    cases hrr : readHeader headers cfg.roles_header <;>
      simp_all [from_auth_headers, from_auth_headers_warnings,
        HeaderRead.toOption, HeaderRead.warns]

/-- Witness for the amended claim C6 at concrete headers with a malformed
roles header: resolution yields the anonymous-role-only identity and a
warning is logged. -/
theorem from_auth_headers_malformed_witness :
    from_auth_headers bad_roles_headers default_auth_config
      = some ⟨"abc", "abc", [ROLE_ANONYMOUS]⟩ ∧
    from_auth_headers_warnings bad_roles_headers default_auth_config ≠ [] :=
  ((from_auth_headers_malformed bad_roles_headers default_auth_config).2.2
    "abc" "abc" (by decide) (by decide) (by decide))

/-! ### Session lookup lemmas -/

/-- If no row of the table matches the id within the duration, the lookup
query returns no row. -/
theorem user_sessions_lookup_eq_none (db : List SessionRow) (sid : Nat)
    (session_duration now : Int)
    (h : ∀ r ∈ db, r.id = sid → ¬(now - r.created < session_duration)) :
    user_sessions_lookup db sid session_duration now = none := by
  unfold user_sessions_lookup
  rw [List.find?_eq_none]
  intro r hr
  simp only [Bool.and_eq_true, decide_eq_true_iff, not_and]
  exact h r hr

/-- With unique ids, a matching unexpired row is the lookup result. -/
theorem user_sessions_lookup_eq_some (db : List SessionRow) (sid : Nat)
    (session_duration now : Int)
    (hnd : (db.map (fun r => r.id)).Nodup)
    (r : SessionRow) (hr : r ∈ db) (hid : r.id = sid)
    (hin : now - r.created < session_duration) :
    user_sessions_lookup db sid session_duration now = some r := by
  induction db with
  | nil => cases hr
  | cons a rest ih =>
    rw [List.map_cons, List.nodup_cons] at hnd
    cases List.mem_cons.mp hr with
    | inl heq =>
      subst heq
      unfold user_sessions_lookup
      exact List.find?_cons_of_pos _ (by simp [hid, hin])
    | inr hmem =>
      have hane : a.id ≠ sid := by
        intro hEq
        exact hnd.1 (by
          have : r.id ∈ rest.map (fun s => s.id) := List.mem_map_of_mem _ hmem
          rw [hid, ← hEq] at this
          exact this)
      unfold user_sessions_lookup
      rw [List.find?_cons_of_neg _ (by simp [hane])]
      exact ih hnd.2 hmem

/-! ### Claim C4 -/

/-- Claim C4: in stateful-session mode, resolution returns `none` without
any database query when the session cookie is absent; with a session id, it
returns `none` uniformly when no table row carries that id within
`session_duration` of now (nonexistent and expired ids alike); otherwise it
returns the stored identity as persisted. -/
theorem from_session_resolution (db : List SessionRow) (session_duration now : Int) :
    from_session none db session_duration now = (none, 0) ∧
    (∀ sid, (∀ r ∈ db, r.id = sid → ¬(now - r.created < session_duration)) →
      (from_session (some sid) db session_duration now).1 = none) ∧
    (∀ sid, (db.map (fun r => r.id)).Nodup →
      ∀ r ∈ db, r.id = sid → now - r.created < session_duration →
      (from_session (some sid) db session_duration now).1
        = some ⟨r.username, r.display_name, r.roles⟩) := by
  refine ⟨rfl, ?_, ?_⟩
  · intro sid h
    simp [from_session, user_sessions_lookup_eq_none db sid session_duration now h]
  · intro sid hnd r hr hid hin
    simp [from_session,
      user_sessions_lookup_eq_some db sid session_duration now hnd r hr hid hin]

/-- Witness for claim C4 at a one-row table: no cookie resolves to `none`
with zero queries; a wrong id and an expired session both resolve to `none`;
an unexpired session resolves to the stored identity. -/
theorem from_session_resolution_witness :
    from_session none [⟨1, "u", "d", ["r"], 0⟩] 10 5 = (none, 0) ∧
    (from_session (some 2) [⟨1, "u", "d", ["r"], 0⟩] 10 5).1 = none ∧
    (from_session (some 1) [⟨1, "u", "d", ["r"], 0⟩] 10 20).1 = none ∧
    (from_session (some 1) [⟨1, "u", "d", ["r"], 0⟩] 10 5).1 = some ⟨"u", "d", ["r"]⟩ := by
  refine ⟨(from_session_resolution [⟨1, "u", "d", ["r"], 0⟩] 10 5).1, ?_, ?_, ?_⟩
  · exact (from_session_resolution [⟨1, "u", "d", ["r"], 0⟩] 10 5).2.1 2 (by decide)
  · exact (from_session_resolution [⟨1, "u", "d", ["r"], 0⟩] 10 20).2.1 1 (by decide)
  · exact (from_session_resolution [⟨1, "u", "d", ["r"], 0⟩] 10 5).2.2 1 (by decide)
      ⟨1, "u", "d", ["r"], 0⟩ (by decide) (by decide) (by decide)

/-! ### Claim C7 -/

/-- Claim C7: creating a session with a fresh id and looking its id up
within `session_duration` of creation returns an identity equal to the
original; a session older than `session_duration` is not returned by lookup
(with the table's ids unique, as its primary key guarantees) and is removed
by a subsequent `delete_expired` sweep. -/
theorem session_roundtrip_and_expiry :
    (∀ (u : User) (db : List SessionRow) (sid : Nat) (now dur now' : Int),
      (∀ r ∈ db, r.id ≠ sid) → now' - now < dur →
      ∃ db', persist_new_session u sid now db = Except.ok (sid, db') ∧
        (from_session (some sid) db' dur now').1
          = some ⟨u.username, u.display_name, u.roles⟩) ∧
    (∀ (db : List SessionRow) (r : SessionRow) (dur now : Int),
      (db.map (fun s => s.id)).Nodup → r ∈ db → now - r.created > dur →
      (from_session (some r.id) db dur now).1 = none ∧
      r ∉ (delete_expired_sessions db dur now).1) := by
  constructor
  · intro u db sid now dur now' hfresh hin
    have hany : db.any (fun r => decide (r.id = sid)) = false := by
      rw [List.any_eq_false]
      intro r hr
      simp [hfresh r hr]
    refine ⟨db ++ [⟨sid, u.username, u.display_name, u.roles, now⟩], ?_, ?_⟩
    · unfold persist_new_session
      rw [if_neg]
      rw [hany]
      exact Bool.false_ne_true
    · have hnone : user_sessions_lookup db sid dur now' = none :=
        user_sessions_lookup_eq_none db sid dur now'
          (fun r hr hid => absurd hid (hfresh r hr))
      have hlook : user_sessions_lookup
          (db ++ [⟨sid, u.username, u.display_name, u.roles, now⟩]) sid dur now'
          = some ⟨sid, u.username, u.display_name, u.roles, now⟩ := by
        unfold user_sessions_lookup
        rw [List.find?_append]
        unfold user_sessions_lookup at hnone
        rw [hnone]
        simp [hin]
      simp [from_session, hlook]
  · intro db r dur now hnd hr hexp
    constructor
    · have hinj := List.inj_on_of_nodup_map hnd
      refine (from_session_resolution db dur now).2.1 r.id ?_
      intro r2 hr2 hid
      have : r2 = r := hinj hr2 hr hid
      subst this
      omega
    · simp only [delete_expired_sessions, List.mem_filter, not_and]
      intro _
      simp [hexp]

/-- Witness for claim C7: persisting a session with id 7 at time 0 into an
empty table and looking it up at time 5 with duration 10 returns the
original identity; at duration 4 the same session is expired, lookup
returns `none`, and the sweep removes the row. -/
theorem session_roundtrip_and_expiry_witness :
    (from_session (some 7) [⟨7, "u", "d", ["r"], 0⟩] 10 5).1 = some ⟨"u", "d", ["r"]⟩ ∧
    (from_session (some 7) [⟨7, "u", "d", ["r"], 0⟩] 4 5).1 = none ∧
    (⟨7, "u", "d", ["r"], 0⟩ : SessionRow)
      ∉ (delete_expired_sessions [⟨7, "u", "d", ["r"], 0⟩] 4 5).1 := by
  have h1 := session_roundtrip_and_expiry.1 ⟨"u", "d", ["r"]⟩ [] 7 0 10 5
    (by intro r hr; cases hr) (by decide)
  have h2 := session_roundtrip_and_expiry.2 [⟨7, "u", "d", ["r"], 0⟩]
    ⟨7, "u", "d", ["r"], 0⟩ 4 5 (by decide) (by decide) (by decide)
  obtain ⟨db', hp, hl⟩ := h1
  have hdb : db' = [⟨7, "u", "d", ["r"], 0⟩] := by
    have hcalc : persist_new_session ⟨"u", "d", ["r"]⟩ 7 0 []
        = Except.ok ((7 : Nat), [(⟨7, "u", "d", ["r"], 0⟩ : SessionRow)]) := rfl
    rw [hcalc] at hp
    cases hp
    rfl
  subst hdb
  exact ⟨hl, h2.1, h2.2⟩

/-! ### Claim C1 -/

/-- Claim C1: once the executor has returned (connection acquired, identity
resolved, transaction opened), more than one live reference to the
transaction handle makes `handle_api` abort the process — no response is
returned and no commit is attempted; conversely, a response is reached only
when exactly one reference (the scope's own) remains. -/
theorem handle_api_sole_reference (env : ApiEnv)
    (hc : env.pool_result = Except.ok ())
    (hu : ∃ u, env.user_result = Except.ok u)
    (ht : env.tx_begin_result = Except.ok ()) :
    (1 < env.tx_refs_after_executor →
      (handle_api env).1 = ApiOutcome.aborted ∧
      (∀ r, (handle_api env).1 ≠ ApiOutcome.response r) ∧
      ApiStep.attemptedCommit ∉ (handle_api env).2) ∧
    (∀ r, (handle_api env).1 = ApiOutcome.response r →
      env.tx_refs_after_executor = 1) := by
  obtain ⟨u, hu⟩ := hu
  by_cases h : env.tx_refs_after_executor = 1
  · exact ⟨fun hgt => absurd h (by omega), fun r _ => h⟩
  · have hout : handle_api env = (ApiOutcome.aborted,
        [ApiStep.acquiredConn, ApiStep.resolvedUser, ApiStep.openedTx,
         ApiStep.ranExecutor]) := by
      simp [handle_api, get_db_connection, hc, hu, ht, h]
    rw [hout]
    refine ⟨fun _ => ⟨rfl, fun r hr => ?_, by decide⟩, fun r hr => ?_⟩
    · simp at hr
    · simp at hr

/-- Witness for claim C1 at a concrete environment in which two strong
references to the transaction remain after the executor: the run aborts. -/
theorem handle_api_sole_reference_witness :
    (handle_api ⟨Except.ok (), Except.ok none, Except.ok (), ⟨200, "ok"⟩, 2,
      Except.ok ()⟩).1 = ApiOutcome.aborted :=
  ((handle_api_sole_reference
    ⟨Except.ok (), Except.ok none, Except.ok (), ⟨200, "ok"⟩, 2, Except.ok ()⟩
    rfl ⟨none, rfl⟩ rfl).1 (by decide)).1

/-! ### Claim C3 -/

/-- Claim C3: with sole ownership confirmed, a failing commit discards the
executor's response and yields the service-unavailable (503) response, with
exactly one commit attempt (no automatic retry); a successful commit returns
the executor's response unchanged. -/
theorem handle_api_commit_outcome (env : ApiEnv)
    (hc : env.pool_result = Except.ok ())
    (hu : ∃ u, env.user_result = Except.ok u)
    (ht : env.tx_begin_result = Except.ok ())
    (hrefs : env.tx_refs_after_executor = 1) :
    (env.commit_result = Except.ok () →
      (handle_api env).1 = ApiOutcome.response env.executor_response) ∧
    (∀ e, env.commit_result = Except.error e →
      (handle_api env).1 = ApiOutcome.response service_unavailable ∧
      service_unavailable.status = 503 ∧
      (handle_api env).2.count ApiStep.attemptedCommit = 1) := by
  obtain ⟨u, hu⟩ := hu
  constructor
  · intro hcm
    simp [handle_api, get_db_connection, hc, hu, ht, hrefs, hcm]
  · intro e hcm
    have hout : handle_api env = (ApiOutcome.response service_unavailable,
        [ApiStep.acquiredConn, ApiStep.resolvedUser, ApiStep.openedTx,
         ApiStep.ranExecutor, ApiStep.attemptedCommit]) := by
      simp [handle_api, get_db_connection, hc, hu, ht, hrefs, hcm]
    rw [hout]
    exact ⟨rfl, rfl, by decide⟩

/-- Witness for claim C3 at concrete environments: a commit failure yields
the 503 response with one commit attempt, and a successful commit returns
the executor's response. -/
theorem handle_api_commit_outcome_witness :
    (handle_api ⟨Except.ok (), Except.ok none, Except.ok (), ⟨200, "ok"⟩, 1,
      Except.error "boom"⟩).1 = ApiOutcome.response service_unavailable ∧
    (handle_api ⟨Except.ok (), Except.ok none, Except.ok (), ⟨200, "ok"⟩, 1,
      Except.ok ()⟩).1 = ApiOutcome.response ⟨200, "ok"⟩ := by
  constructor
  · exact ((handle_api_commit_outcome
      ⟨Except.ok (), Except.ok none, Except.ok (), ⟨200, "ok"⟩, 1, Except.error "boom"⟩
      rfl ⟨none, rfl⟩ rfl rfl).2 "boom" rfl).1
  · exact (handle_api_commit_outcome
      ⟨Except.ok (), Except.ok none, Except.ok (), ⟨200, "ok"⟩, 1, Except.ok ()⟩
      rfl ⟨none, rfl⟩ rfl rfl).1 rfl

/-! ### Claim C8 -/

/-- Claim C8: a failing pool acquisition terminates the request with the
service-unavailable (503) response before any later step — no transaction is
opened, no executor runs, no commit is attempted; a database error during
identity resolution instead terminates with the internal-error (500)
response. -/
theorem handle_api_early_failures (env : ApiEnv) :
    (∀ e, env.pool_result = Except.error e →
      handle_api env = (ApiOutcome.response service_unavailable, []) ∧
      service_unavailable.status = 503 ∧
      ApiStep.openedTx ∉ (handle_api env).2 ∧
      ApiStep.ranExecutor ∉ (handle_api env).2 ∧
      ApiStep.attemptedCommit ∉ (handle_api env).2) ∧
    (env.pool_result = Except.ok () → ∀ e, env.user_result = Except.error e →
      (handle_api env).1 = ApiOutcome.response internal_server_error ∧
      internal_server_error.status = 500) := by
  constructor
  · intro e he
    have hout : handle_api env = (ApiOutcome.response service_unavailable, []) := by
      simp [handle_api, get_db_connection, he]
    rw [hout]
    exact ⟨rfl, rfl, by decide, by decide, by decide⟩
  · intro hc e hu
    have hout : handle_api env = (ApiOutcome.response internal_server_error,
        [ApiStep.acquiredConn]) := by
      simp [handle_api, get_db_connection, hc, hu]
    rw [hout]
    exact ⟨rfl, rfl⟩

/-- Witness for claim C8 at concrete environments: pool exhaustion yields
the 503 response with an empty step trace; a database error during identity
resolution yields the 500 response. -/
theorem handle_api_early_failures_witness :
    handle_api ⟨Except.error "pool timed out", Except.ok none, Except.ok (),
      ⟨200, "ok"⟩, 1, Except.ok ()⟩ = (ApiOutcome.response service_unavailable, []) ∧
    (handle_api ⟨Except.ok (), Except.error "db down", Except.ok (),
      ⟨200, "ok"⟩, 1, Except.ok ()⟩).1 = ApiOutcome.response internal_server_error := by
  constructor
  · exact ((handle_api_early_failures
      ⟨Except.error "pool timed out", Except.ok none, Except.ok (), ⟨200, "ok"⟩, 1,
        Except.ok ()⟩).1 "pool timed out" rfl).1
  · exact ((handle_api_early_failures
      ⟨Except.ok (), Except.error "db down", Except.ok (), ⟨200, "ok"⟩, 1,
        Except.ok ()⟩).2 rfl "db down" rfl).1

end Tobira
